import Mathlib

/-!
Shallow embedding of `src/vpcctl.py` (a single-host VPC manager built on
Linux bridges, network namespaces and veth pairs), together with theorems
settling the specification claims about it.

Modelling conventions:
* Shell commands issued through `run_cmd` are recorded as events; the host is
  abstracted as a `World : String → Int` giving each command string its exit
  code.
* The persisted JSON config directory (`/tmp/vpc_configs`) is a keyed store
  `String → Option VpcConfig`; writes and deletions are also recorded as
  events, so "zero kernel mutations and zero store writes" is "no events".
* Python's `subprocess.run` result (`CompletedProcess`) defines no `__bool__`,
  hence is always truthy; `run_cmd` returns `none` exactly when it caught a
  `CalledProcessError` (only possible with `check=True`).  `pyNot` models
  Python's `not` applied to that optional result.
* Python `int(str)` is modelled by `pyInt` (ASCII whitespace stripping, an
  optional sign, decimal digits with single underscores between digits).
* Python `str.split(sep)` for a one-character separator is modelled by
  `pySplitChar`, and `s[:-1]` by `pyDropLast`.
-/

namespace Vpcctl

/-- Characters Python's `int()` strips from both ends of its argument
(ASCII whitespace: space, tab, LF, VT, FF, CR). -/
def isPySpace (c : Char) : Bool :=
  c.toNat = 32 || c.toNat = 9 || c.toNat = 10 || c.toNat = 11 ||
  c.toNat = 12 || c.toNat = 13

/-- ASCII decimal digit. -/
def isPyDigit (c : Char) : Bool :=
  48 ≤ c.toNat && c.toNat ≤ 57

/-- Numeric value of an ASCII digit. -/
def digitVal (c : Char) : Nat := c.toNat - 48

/-- Digit run after the first digit: single underscores may appear, but only
between two digits (Python's grouping rule for `int()`). -/
def pyDigitsAux : List Char → Nat → Option Nat
  | [], acc => some acc
  | '_' :: c :: rest, acc =>
      if isPyDigit c then pyDigitsAux rest (acc * 10 + digitVal c) else none
  | c :: rest, acc =>
      if isPyDigit c then pyDigitsAux rest (acc * 10 + digitVal c) else none

/-- A nonempty digit run (with internal underscores) and its value. -/
def pyDigits : List Char → Option Nat
  | [] => none
  | c :: rest => if isPyDigit c then pyDigitsAux rest (digitVal c) else none

/-- Signed integer literal body (after whitespace stripping). -/
def pyIntCore : List Char → Option Int
  | '+' :: rest => (pyDigits rest).map Int.ofNat
  | '-' :: rest => (pyDigits rest).map fun n => -(n : Int)
  | cs => (pyDigits cs).map Int.ofNat

/-- Models Python's `int(s)` for base-10 strings: strips ASCII whitespace,
allows an optional sign and underscores between digits; `none` models a
raised `ValueError`. -/
def pyInt (s : String) : Option Int :=
  pyIntCore (((s.data.dropWhile isPySpace).reverse.dropWhile isPySpace).reverse)

/-- Split a character list at every occurrence of `c`, keeping empty pieces
(Python `str.split(sep)` semantics for a single-character `sep`). -/
def splitCharList (c : Char) : List Char → List (List Char)
  | [] => [[]]
  | x :: xs =>
      if x = c then [] :: splitCharList c xs
      else
        match splitCharList c xs with
        | [] => [[x]]
        | g :: gs => (x :: g) :: gs

/-- Models Python `s.split(c)` for a one-character separator `c`. -/
def pySplitChar (s : String) (c : Char) : List String :=
  (splitCharList c s.data).map fun l => String.mk l

/-- Models Python `s[:-1]`. -/
def pyDropLast (s : String) : String := String.mk s.data.dropLast

/-- Plain decimal numeral (nonempty, digits only) and its value; used by the
spec-side definitions, which speak of dotted-quad octets. -/
def decNat (l : List Char) : Option Nat :=
  if l ≠ [] ∧ l.all isPyDigit then
    some (l.foldl (fun acc c => acc * 10 + digitVal c) 0)
  else none

/-- The exception abstracted from the `except:` clause of `validate_cidr`
(Python raises `ValueError` from `int()` or from unpacking `split('/')`). -/
inductive PyErr where
  | valueError
deriving DecidableEq

/-- Models the generator check `all(0 <= int(p) <= 255 for p in parts)`:
evaluated left to right, raising (error) when `int(p)` fails, returning
`false` at the first out-of-range value. -/
def allOctets : List String → Except PyErr Bool
  | [] => Except.ok true
  | p :: rest =>
      match pyInt p with
      | none => Except.error PyErr.valueError
      | some v => if 0 ≤ v ∧ v ≤ 255 then allOctets rest else Except.ok false

/-- The `try:` body of `validate_cidr` (src/vpcctl.py lines 256-268):
`ip, mask = cidr.split('/')` (raises unless exactly two pieces), then
`mask = int(mask)`, then the four-octet check, then the mask range check. -/
def validate_cidr_body (cidr : String) : Except PyErr Bool :=
  match pySplitChar cidr '/' with
  | [ip, maskStr] =>
      match pyInt maskStr with
      | none => Except.error PyErr.valueError
      | some mask =>
          let parts := pySplitChar ip '.'
          if parts.length = 4 then
            match allOctets parts with
            | Except.error e => Except.error e
            | Except.ok false => Except.ok false
            | Except.ok true => Except.ok (decide (0 ≤ mask) && decide (mask ≤ 32))
          else Except.ok false
  | _ => Except.error PyErr.valueError

/-- `validate_cidr` (src/vpcctl.py lines 254-270): the `try:` body with the
bare `except:` converting any exception into `False`. -/
def validate_cidr (cidr : String) : Bool :=
  match validate_cidr_body cidr with
  | Except.ok b => b
  | Except.error _ => false

/-- Result of `subprocess.run` that completed (possibly with nonzero exit
status).  `CompletedProcess` defines no `__bool__`, so as a Python value it is
always truthy regardless of `returncode`. -/
structure CompletedProcess where
  returncode : Int
deriving DecidableEq

/-- The host running the shell commands: each full command string is mapped to
the exit code it would produce. -/
def World := String → Int

/-- Persisted subnet entry, the value stored under `config["subnets"][name]`
(src/vpcctl.py lines 133-139).  The JSON key `namespace` is the field `ns`. -/
structure SubnetRec where
  cidr : String
  ty : String
  ns : String
  veth_host : String
  veth_ns : String
deriving DecidableEq

/-- Persisted VPC record, the JSON document `<name>.json`
(src/vpcctl.py lines 49-54).  The `subnets` dict is an insertion-ordered
association list with distinct keys. -/
structure VpcConfig where
  name : String
  cidr : String
  bridge : String
  subnets : List (String × SubnetRec)
deriving DecidableEq

/-- Python dict lookup `d[k]` / membership `k in d` over the assoc-list model. -/
def assocGet : List (String × SubnetRec) → String → Option SubnetRec
  | [], _ => none
  | p :: rest, k => if p.1 = k then some p.2 else assocGet rest k

/-- Python dict update `d[k] = v`: replaces the entry in place when the key is
present (dict keys are unique), else appends it. -/
def assocPut : List (String × SubnetRec) → String → SubnetRec →
    List (String × SubnetRec)
  | [], k, v => [(k, v)]
  | p :: rest, k, v =>
      if p.1 = k then (k, v) :: rest else p :: assocPut rest k v

/-- Python dict deletion `del d[k]`. -/
def assocErase : List (String × SubnetRec) → String →
    List (String × SubnetRec)
  | [], _ => []
  | p :: rest, k =>
      if p.1 = k then assocErase rest k else p :: assocErase rest k

/-- Observable effects of one manager call: shell commands issued via
`run_cmd`, and writes/deletions of persisted VPC records. -/
inductive Ev where
  | cmd : String → Ev
  | putRec : String → VpcConfig → Ev
  | delRec : String → Ev
deriving DecidableEq

/-- Mutable context threaded through an operation: the event log and the
config-file store (`/tmp/vpc_configs/<name>.json` keyed by VPC name). -/
structure St where
  events : List Ev
  store : String → Option VpcConfig

/-- `run_cmd` (src/vpcctl.py lines 16-24): executes the command; with
`check=True` a nonzero exit raises `CalledProcessError`, which is caught and
turned into `None`; otherwise the truthy `CompletedProcess` is returned. -/
def runCmd (w : World) (check : Bool) (cmd : String) (s : St) :
    Option CompletedProcess × St :=
  (if check && w cmd ≠ 0 then none else some ⟨w cmd⟩,
   { s with events := s.events ++ [Ev.cmd cmd] })

/-- Python `not` applied to `run_cmd`'s result: `None` is falsy and any
`CompletedProcess` is truthy (it has no `__bool__`), so this is `isNone`. -/
def pyNot (r : Option CompletedProcess) : Bool := r.isNone

/-- `config_file.exists()` + `json.load` (a read; not an event). -/
def storeGet (name : String) (s : St) : Option VpcConfig := s.store name

/-- `json.dump(config, open(config_file, 'w'))`: overwrite the record. -/
def storePut (name : String) (c : VpcConfig) (s : St) : St :=
  { events := s.events ++ [Ev.putRec name c],
    store := fun k => if k = name then some c else s.store k }

/-- `config_file.unlink()`: remove the record. -/
def storeDelete (name : String) (s : St) : St :=
  { events := s.events ++ [Ev.delRec name],
    store := fun k => if k = name then none else s.store k }

/-- `create_vpc` (src/vpcctl.py lines 31-61). -/
def create_vpc (w : World) (name cidr : String) (s : St) : Bool × St :=
  if !validate_cidr cidr then (false, s)
  else
    let bridge_name := "br-" ++ name
    let (r, s) := runCmd w false ("ip link show " ++ bridge_name) s
    let s :=
      if pyNot r then
        (runCmd w true ("ip link set " ++ bridge_name ++ " up")
          (runCmd w true ("ip link add " ++ bridge_name ++ " type bridge") s).2).2
      else s
    let vpc_config : VpcConfig := ⟨name, cidr, bridge_name, []⟩
    (true, storePut name vpc_config s)

/-- `delete_subnet` (src/vpcctl.py lines 147-175). -/
def delete_subnet (w : World) (vpc_name subnet_name : String) (s : St) :
    Bool × St :=
  match storeGet vpc_name s with
  | none => (false, s)
  | some config =>
    match assocGet config.subnets subnet_name with
    | none => (false, s)
    | some subnet_info =>
      let s := (runCmd w false ("ip netns delete " ++ subnet_info.ns) s).2
      let s := storePut vpc_name
        { config with subnets := assocErase config.subnets subnet_name } s
      (true, s)

/-- The `for subnet_name in list(config.get("subnets", {}).keys())` loop of
`delete_vpc` (src/vpcctl.py lines 77-78); each iteration re-reads the store,
as `delete_subnet` does in the source. -/
def delete_vpc_subnets (w : World) (name : String) :
    List String → St → St
  | [], s => s
  | sn :: rest, s => delete_vpc_subnets w name rest (delete_subnet w name sn s).2

/-- `delete_vpc` (src/vpcctl.py lines 63-89). -/
def delete_vpc (w : World) (name : String) (s : St) : Bool × St :=
  match storeGet name s with
  | none => (false, s)
  | some config =>
    let s := delete_vpc_subnets w name (config.subnets.map Prod.fst) s
    let s := (runCmd w false ("ip link set " ++ config.bridge ++ " down") s).2
    let s := (runCmd w false
      ("ip link delete " ++ config.bridge ++ " type bridge") s).2
    (true, storeDelete name s)

/-- The gateway derivation of `create_subnet` (src/vpcctl.py line 129):
`cidr.split('/')[0][:-1] + "1"`. -/
def gateway_of (cidr : String) : String :=
  pyDropLast (((pySplitChar cidr '/').headD "")) ++ "1"

/-- `create_subnet` (src/vpcctl.py lines 91-145). -/
def create_subnet (w : World) (vpc_name subnet_name cidr subnet_type : String)
    (s : St) : Bool × St :=
  match storeGet vpc_name s with
  | none => (false, s)
  | some config =>
    let ns_name := "ns-" ++ vpc_name ++ "-" ++ subnet_name
    let (r, s) := runCmd w false ("ip netns list | grep -q " ++ ns_name) s
    let s := if pyNot r then (runCmd w true ("ip netns add " ++ ns_name) s).2 else s
    let veth_host := "veth-" ++ subnet_name ++ "-host"
    let veth_ns := "veth-" ++ subnet_name ++ "-ns"
    let s := (runCmd w true ("ip link add " ++ veth_host ++
      " type veth peer name " ++ veth_ns) s).2
    let s := (runCmd w true ("ip link set " ++ veth_ns ++ " netns " ++ ns_name) s).2
    let s := (runCmd w true ("ip link set " ++ veth_host ++ " master " ++
      config.bridge) s).2
    let s := (runCmd w true ("ip link set " ++ veth_host ++ " up") s).2
    let s := (runCmd w true ("ip netns exec " ++ ns_name ++
      " ip link set lo up") s).2
    let s := (runCmd w true ("ip netns exec " ++ ns_name ++ " ip link set " ++
      veth_ns ++ " up") s).2
    let s := (runCmd w true ("ip netns exec " ++ ns_name ++ " ip addr add " ++
      cidr ++ " dev " ++ veth_ns) s).2
    let gateway_ip := gateway_of cidr
    let s := (runCmd w true ("ip netns exec " ++ ns_name ++
      " ip route add default via " ++ gateway_ip) s).2
    let entry := SubnetRec.mk cidr subnet_type ns_name veth_host veth_ns
    let s := storePut vpc_name
      { config with subnets := assocPut config.subnets subnet_name entry } s
    (true, s)

/-- `setup_nat` (src/vpcctl.py lines 177-205). -/
def setup_nat (w : World) (vpc_name public_subnet host_interface : String)
    (s : St) : Bool × St :=
  match storeGet vpc_name s with
  | none => (false, s)
  | some config =>
    match assocGet config.subnets public_subnet with
    | none => (false, s)
    | some _ =>
      let s := (runCmd w true "sysctl -w net.ipv4.ip_forward=1" s).2
      let vpc_cidr := config.cidr
      let s := (runCmd w true ("iptables -t nat -A POSTROUTING -s " ++
        vpc_cidr ++ " -o " ++ host_interface ++ " -j MASQUERADE") s).2
      let s := (runCmd w true ("iptables -A FORWARD -i " ++ config.bridge ++
        " -o " ++ host_interface ++ " -j ACCEPT") s).2
      let s := (runCmd w true ("iptables -A FORWARD -i " ++ host_interface ++
        " -o " ++ config.bridge ++
        " -m state --state RELATED,ESTABLISHED -j ACCEPT") s).2
      (true, s)

/-- `exec_command` (src/vpcctl.py lines 207-232). -/
def exec_command (w : World) (vpc_name subnet_name command : String) (s : St) :
    Bool × St :=
  match storeGet vpc_name s with
  | none => (false, s)
  | some config =>
    match assocGet config.subnets subnet_name with
    | none => (false, s)
    | some info =>
      let full_cmd := "ip netns exec " ++ info.ns ++ " " ++ command
      let (result, s) := runCmd w false full_cmd s
      (match result with
       | some r => r.returncode == 0
       | none => false, s)

/-- One parsed ingress entry of a firewall rules file
(`{port, protocol?, action?}`); absent keys are `none` and take the
source's `rule.get` defaults when rendered. -/
structure Rule where
  port : Option Int
  protocol : Option String
  action : Option String
deriving DecidableEq

/-- Parsed firewall rules document: a JSON object whose `ingress` key
(defaulting to the empty list) lists the ingress rules. -/
structure RulesDoc where
  ingress : List Rule
deriving DecidableEq

/-- The filesystem holding rules files: `none` - the path does not exist
(`os.path.exists` false); `some none` - it exists but reading or
`json.load`-ing it raises; `some (some doc)` - it parses to `doc`. -/
def RulesFS := String → Option (Option RulesDoc)

/-- The `iptables` command appended for one ingress rule
(src/vpcctl.py lines 306-314), with the `rule.get` defaults
(`protocol` `tcp`, `action` `allow`; a missing `port` renders as `None`). -/
def rule_cmd (ns_name : String) (rule : Rule) : String :=
  let port := match rule.port with
    | some n => toString n
    | none => "None"
  let protocol := rule.protocol.getD "tcp"
  let action := rule.action.getD "allow"
  if action = "allow" then
    "ip netns exec " ++ ns_name ++ " iptables -A INPUT -p " ++ protocol ++
      " --dport " ++ port ++ " -j ACCEPT"
  else
    "ip netns exec " ++ ns_name ++ " iptables -A INPUT -p " ++ protocol ++
      " --dport " ++ port ++ " -j DROP"

/-- The `for cmd in cmds: self.run_cmd(cmd)` loop (src/vpcctl.py
lines 326-327). -/
def runCmds (w : World) : List String → St → St
  | [], s => s
  | c :: rest, s => runCmds w rest (runCmd w true c s).2

/-- `apply_firewall` (src/vpcctl.py lines 272-330).  Note that in the source
the base rules, custom rules and trailing SSH/HTTP allows are only collected
in the Python list `cmds`; nothing is executed until the final loop, which is
reached only if the rules file parsed (a parse failure returns `False` with
no command run). -/
def apply_firewall (w : World) (rfs : RulesFS) (vpc_name subnet_name : String)
    (rules_file : Option String) (s : St) : Bool × St :=
  match storeGet vpc_name s with
  | none => (false, s)
  | some config =>
    match assocGet config.subnets subnet_name with
    | none => (false, s)
    | some info =>
      let ns_name := info.ns
      let cmds : List String :=
        ["ip netns exec " ++ ns_name ++ " iptables -F",
         "ip netns exec " ++ ns_name ++ " iptables -P INPUT DROP",
         "ip netns exec " ++ ns_name ++ " iptables -P FORWARD DROP",
         "ip netns exec " ++ ns_name ++ " iptables -P OUTPUT ACCEPT",
         "ip netns exec " ++ ns_name ++
           " iptables -A INPUT -m state --state ESTABLISHED,RELATED -j ACCEPT",
         "ip netns exec " ++ ns_name ++ " iptables -A INPUT -i lo -j ACCEPT"]
      let custom : Option (List String) :=
        match rules_file with
        | none => some []
        | some rf =>
          if rf ≠ "" && (rfs rf).isSome then
            match rfs rf with
            | some (some rules) => some (rules.ingress.map (rule_cmd ns_name))
            | some none => none
            | none => some []
          else some []
      match custom with
      | none => (false, s)
      | some extra =>
        let cmds := cmds ++ extra ++
          ["ip netns exec " ++ ns_name ++
             " iptables -A INPUT -p tcp --dport 22 -j ACCEPT",
           "ip netns exec " ++ ns_name ++
             " iptables -A INPUT -p tcp --dport 80 -j ACCEPT"]
        (true, runCmds w cmds s)

/-- A host on which every shell command exits with status 1: in particular
`ip link show br-...` and `ip netns list | grep -q ...` report that the
bridge / namespace does not exist. -/
def worldDown : World := fun _ => 1

/-- Empty initial state: no events yet, no persisted VPC records. -/
def st0 : St := ⟨[], fun _ => none⟩

/-- A persisted record for VPC `test` with no subnets. -/
def cfgTest : VpcConfig := ⟨"test", "10.1.0.0/16", "br-test", []⟩

/-- Subnet record for `web` inside VPC `test`. -/
def webRec : SubnetRec :=
  ⟨"10.1.1.0/24", "public", "ns-test-web", "veth-web-host", "veth-web-ns"⟩

/-- Subnet record for `db` inside VPC `test`. -/
def dbRec : SubnetRec :=
  ⟨"10.1.2.0/24", "private", "ns-test-db", "veth-db-host", "veth-db-ns"⟩

/-- Record for VPC `test` holding the two subnets `web` and `db`. -/
def cfgTest2 : VpcConfig :=
  ⟨"test", "10.1.0.0/16", "br-test", [("web", webRec), ("db", dbRec)]⟩

/-- A store holding exactly the record `cfgTest` under `test`. -/
def stTest : St := ⟨[], fun n => if n = "test" then some cfgTest else none⟩

/-- A store holding exactly the record `cfgTest2` under `test`. -/
def stTest2 : St := ⟨[], fun n => if n = "test" then some cfgTest2 else none⟩

/-- A rules filesystem on which `rules.json` exists but reading/parsing it
raises. -/
def rfsBad : RulesFS := fun p => if p = "rules.json" then some none else none

lemma assocGet_erase_self (l : List (String × SubnetRec)) (k : String) :
    assocGet (assocErase l k) k = none := by
  induction l with
  | nil => rfl
  | cons p rest ih =>
    by_cases h : p.1 = k
    · simpa [assocErase, h] using ih
    · simpa [assocErase, assocGet, h] using ih

lemma assocGet_erase_ne (l : List (String × SubnetRec)) (k k' : String)
    (h : k' ≠ k) : assocGet (assocErase l k) k' = assocGet l k' := by
  induction l with
  | nil => rfl
  | cons p rest ih =>
    by_cases hp : p.1 = k
    · have hp' : p.1 ≠ k' := fun he => h (he ▸ hp)
      simpa [assocErase, assocGet, hp, hp', Ne.symm h] using ih
    · by_cases hq : p.1 = k'
      · simp [assocErase, assocGet, hp, hq, h]
      · simpa [assocErase, assocGet, hp, hq] using ih

lemma assocGet_of_mem_nodup (l : List (String × SubnetRec)) (k : String)
    (v : SubnetRec) (hnd : (l.map Prod.fst).Nodup) (hm : (k, v) ∈ l) :
    assocGet l k = some v := by
  induction l with
  | nil => simp at hm
  | cons p rest ih =>
    rcases List.mem_cons.mp hm with h | h
    · simp [assocGet, ← h]
    · have hk : p.1 ≠ k := by
        intro hek
        have hmem : k ∈ rest.map Prod.fst := List.mem_map.mpr ⟨(k, v), h, rfl⟩
        simp only [List.map_cons, List.nodup_cons] at hnd
        exact hnd.1 (hek ▸ hmem)
      have hnd' : (rest.map Prod.fst).Nodup := by
        simp only [List.map_cons, List.nodup_cons] at hnd
        exact hnd.2
      simpa [assocGet, hk] using ih hnd' h

/-- C9: `validate_cidr` is total, and any exception raised inside its `try:`
body (a `ValueError` from `split` unpacking or `int()`) is caught by the bare
`except:` and converted to the return value `False`. -/
theorem spec_C9_exception_to_false (s : String) (e : PyErr)
    (h : validate_cidr_body s = Except.error e) : validate_cidr s = false := by
  simp [validate_cidr, h]

/-- Witness for C9 at the concrete unparseable input `10.1.0.0` (no mask). -/
theorem spec_C9_exception_to_false_witness :
    validate_cidr_body "10.1.0.0" = Except.error PyErr.valueError ∧
    validate_cidr "10.1.0.0" = false :=
  ⟨by rfl,
   spec_C9_exception_to_false "10.1.0.0" PyErr.valueError (by rfl)⟩

/-- C1: refuted (code bug).  On a host where `br-test` does not exist
(`ip link show br-test` exits 1), `create_vpc "test" "10.1.0.0/16"` issues
only the existence query and the record write: it never issues
`ip link add`/`ip link set up`, because `run_cmd(..., check=False)` returns a
truthy `CompletedProcess` even on failure, so `if not self.run_cmd(...)` is
never taken and the "already exists" branch is always logged. -/
theorem spec_C1_bridge_never_created :
    (create_vpc worldDown "test" "10.1.0.0/16" st0).1 = true ∧
    (create_vpc worldDown "test" "10.1.0.0/16" st0).2.events =
      [Ev.cmd "ip link show br-test", Ev.putRec "test" cfgTest] ∧
    Ev.cmd "ip link add br-test type bridge" ∉
      (create_vpc worldDown "test" "10.1.0.0/16" st0).2.events ∧
    Ev.cmd "ip link set br-test up" ∉
      (create_vpc worldDown "test" "10.1.0.0/16" st0).2.events := by
  decide

/-- C2: refuted (code bug).  With VPC `test` present and namespace
`ns-test-web` absent (`ip netns list | grep -q ns-test-web` exits 1),
`create_subnet` issues the namespace existence query but never
`ip netns add ns-test-web`: the same truthiness slip as in `create_vpc`
makes the check-then-create branch unreachable. -/
theorem spec_C2_namespace_never_created :
    (create_subnet worldDown "test" "web" "10.1.1.0/24" "public" stTest).1 =
      true ∧
    Ev.cmd "ip netns list | grep -q ns-test-web" ∈
      (create_subnet worldDown "test" "web" "10.1.1.0/24" "public" stTest).2.events ∧
    Ev.cmd "ip netns add ns-test-web" ∉
      (create_subnet worldDown "test" "web" "10.1.1.0/24" "public" stTest).2.events := by
  decide

/-- C10: a successful `delete_subnet` removes exactly the deleted entry from
the persisted record: the record keeps its `name`, `cidr` and `bridge`, every
other subnet entry is unchanged, and records of other VPCs are untouched. -/
theorem spec_C10_delete_subnet_frame (w : World) (s : St) (vpc sn : String)
    (cfg : VpcConfig) (info : SubnetRec)
    (h1 : s.store vpc = some cfg) (h2 : assocGet cfg.subnets sn = some info) :
    (delete_subnet w vpc sn s).1 = true ∧
    (∃ cfg', (delete_subnet w vpc sn s).2.store vpc = some cfg' ∧
      cfg'.name = cfg.name ∧ cfg'.cidr = cfg.cidr ∧ cfg'.bridge = cfg.bridge ∧
      assocGet cfg'.subnets sn = none ∧
      ∀ k, k ≠ sn → assocGet cfg'.subnets k = assocGet cfg.subnets k) ∧
    (∀ n, n ≠ vpc → (delete_subnet w vpc sn s).2.store n = s.store n) := by
  refine ⟨?_, ⟨{ cfg with subnets := assocErase cfg.subnets sn }, ?_, rfl, rfl,
    rfl, assocGet_erase_self cfg.subnets sn,
    fun k hk => assocGet_erase_ne cfg.subnets sn k hk⟩, ?_⟩
  · simp [delete_subnet, storeGet, h1, h2]
  · simp [delete_subnet, storeGet, h1, h2, runCmd, storePut]
  · intro n hn
    simp [delete_subnet, storeGet, h1, h2, runCmd, storePut, hn]

/-- Witness for C10: deleting subnet `web` from `cfgTest2` keeps `db` and the
record's identity fields. -/
theorem spec_C10_delete_subnet_frame_witness :
    (delete_subnet worldDown "test" "web" stTest2).1 = true ∧
    (∃ cfg', (delete_subnet worldDown "test" "web" stTest2).2.store "test" =
        some cfg' ∧
      cfg'.name = cfgTest2.name ∧ cfg'.cidr = cfgTest2.cidr ∧
      cfg'.bridge = cfgTest2.bridge ∧
      assocGet cfg'.subnets "web" = none ∧
      ∀ k, k ≠ "web" →
        assocGet cfg'.subnets k = assocGet cfgTest2.subnets k) ∧
    (∀ n, n ≠ "test" →
      (delete_subnet worldDown "test" "web" stTest2).2.store n =
        stTest2.store n) :=
  spec_C10_delete_subnet_frame worldDown stTest2 "test" "web" cfgTest2 webRec
    (by simp [stTest2]) (by decide)

/-- C5: an operation referencing an absent VPC record, or an absent subnet
name of an existing VPC, returns the not-found failure (`False`) with the
state untouched: no shell command is issued and no record is written.
The hypothesis covers both scenarios at once for the four subnet-referencing
operations; `create_subnet` (which creates the subnet name rather than
referencing it) is covered for the absent-VPC case. -/
theorem spec_C5_not_found_no_effects (w : World) (rfs : RulesFS) (s : St)
    (vpc sn cidr ty hi cmd : String) (rf : Option String)
    (h : ∀ cfg, s.store vpc = some cfg → assocGet cfg.subnets sn = none) :
    delete_subnet w vpc sn s = (false, s) ∧
    setup_nat w vpc sn hi s = (false, s) ∧
    apply_firewall w rfs vpc sn rf s = (false, s) ∧
    exec_command w vpc sn cmd s = (false, s) ∧
    (s.store vpc = none → create_subnet w vpc sn cidr ty s = (false, s)) := by
  cases hs : s.store vpc with
  | none =>
    refine ⟨?_, ?_, ?_, ?_, fun _ => ?_⟩ <;>
      simp [delete_subnet, setup_nat, apply_firewall, exec_command,
        create_subnet, storeGet, hs]
  | some cfg =>
    have h2 := h cfg hs
    refine ⟨?_, ?_, ?_, ?_, fun hn => ?_⟩
    · simp [delete_subnet, storeGet, hs, h2]
    · simp [setup_nat, storeGet, hs, h2]
    · simp [apply_firewall, storeGet, hs, h2]
    · simp [exec_command, storeGet, hs, h2]
    · exact Option.noConfusion hn

/-- Witness for C5 on the empty store (`st0` holds no records). -/
theorem spec_C5_not_found_no_effects_witness :
    delete_subnet worldDown "v" "s" st0 = (false, st0) ∧
    setup_nat worldDown "v" "s" "eth0" st0 = (false, st0) ∧
    apply_firewall worldDown rfsBad "v" "s" none st0 = (false, st0) ∧
    exec_command worldDown "v" "s" "ip addr" st0 = (false, st0) ∧
    (st0.store "v" = none →
      create_subnet worldDown "v" "s" "10.0.0.0/24" "private" st0 =
        (false, st0)) :=
  spec_C5_not_found_no_effects worldDown rfsBad st0 "v" "s" "10.0.0.0/24"
    "private" "eth0" "ip addr" none (by simp [st0])

/-- C8: for a valid CIDR, calling `create_vpc` twice succeeds both times
(the second call is untroubled by the already-existing bridge), leaves the
record for `name` holding the same document after each call, and writes no
record under any other key. -/
theorem spec_C8_create_vpc_idempotent (w : World) (s : St)
    (name cidr : String) (h : validate_cidr cidr = true) :
    (create_vpc w name cidr s).1 = true ∧
    (create_vpc w name cidr (create_vpc w name cidr s).2).1 = true ∧
    (create_vpc w name cidr (create_vpc w name cidr s).2).2.store name =
      some ⟨name, cidr, "br-" ++ name, []⟩ ∧
    (create_vpc w name cidr (create_vpc w name cidr s).2).2.store name =
      (create_vpc w name cidr s).2.store name ∧
    ∀ k, k ≠ name →
      (create_vpc w name cidr (create_vpc w name cidr s).2).2.store k =
        s.store k := by
  refine ⟨?_, ?_, ?_, ?_, ?_⟩ <;>
    simp [create_vpc, h, runCmd, pyNot, storePut]
  intro k hk
  simp [hk]

/-- Witness for C8 at `createVPC("test", "10.1.0.0/16")` twice from the
empty store. -/
theorem spec_C8_create_vpc_idempotent_witness :
    (create_vpc worldDown "test" "10.1.0.0/16" st0).1 = true ∧
    (create_vpc worldDown "test" "10.1.0.0/16"
        (create_vpc worldDown "test" "10.1.0.0/16" st0).2).1 = true ∧
    (create_vpc worldDown "test" "10.1.0.0/16"
        (create_vpc worldDown "test" "10.1.0.0/16" st0).2).2.store "test" =
      some ⟨"test", "10.1.0.0/16", "br-" ++ "test", []⟩ ∧
    (create_vpc worldDown "test" "10.1.0.0/16"
        (create_vpc worldDown "test" "10.1.0.0/16" st0).2).2.store "test" =
      (create_vpc worldDown "test" "10.1.0.0/16" st0).2.store "test" ∧
    ∀ k, k ≠ "test" →
      (create_vpc worldDown "test" "10.1.0.0/16"
          (create_vpc worldDown "test" "10.1.0.0/16" st0).2).2.store k =
        st0.store k :=
  spec_C8_create_vpc_idempotent worldDown st0 "test" "10.1.0.0/16" (by decide)

/-- Modelled from the spec: the gateway the spec describes, "the subnet
CIDR's network address with its last octet replaced by 1" — parse the
dotted quad and mask as plain decimal numerals, zero the host bits to get
the network address, and print it back with last octet `1`. -/
def spec_gateway (cidr : String) : Option String :=
  match pySplitChar cidr '/' with
  | [ip, maskStr] =>
    match pySplitChar ip '.' with
    | [a, b, c, d] =>
      match decNat a.data, decNat b.data, decNat c.data, decNat d.data,
          decNat maskStr.data with
      | some av, some bv, some cv, some dv, some m =>
        if av ≤ 255 ∧ bv ≤ 255 ∧ cv ≤ 255 ∧ dv ≤ 255 ∧ m ≤ 32 then
          let addr := ((av * 256 + bv) * 256 + cv) * 256 + dv
          let net := (addr / 2 ^ (32 - m)) * 2 ^ (32 - m)
          some (toString (net / 2 ^ 24 % 256) ++ "." ++
            toString (net / 2 ^ 16 % 256) ++ "." ++
            toString (net / 2 ^ 8 % 256) ++ ".1")
        else none
      | _, _, _, _, _ => none
    | _ => none
  | _ => none

/-- C3 counterexample: for CIDR `10.1.1.128/25` the spec's derivation gives
`10.1.1.1` (network address `10.1.1.128`, last octet replaced by 1), but the
code drops the last *character* of the address string and appends `1`,
issuing a default route via `10.1.1.121`. -/
theorem spec_C3_counterexample :
    Ev.cmd "ip netns exec ns-test-web ip route add default via 10.1.1.121" ∈
      (create_subnet worldDown "test" "web" "10.1.1.128/25" "private"
        stTest).2.events ∧
    spec_gateway "10.1.1.128/25" = some "10.1.1.1" ∧
    gateway_of "10.1.1.128/25" = "10.1.1.121" ∧
    gateway_of "10.1.1.128/25" ≠ "10.1.1.1" := by
  decide

/-- C3 as amended: the gateway `create_subnet` routes through is the CIDR's
address part with its final character dropped and `"1"` appended
(`gateway_of`); this only agrees with "network address, last octet replaced
by 1" when the address already is the network address and its last octet is
a single digit — in particular the spec's example `10.0.1.0/24 ↦ 10.0.1.1`
holds. -/
theorem spec_C3_gateway_last_char (w : World) (s : St)
    (vpc sn cidr ty : String) (cfg : VpcConfig)
    (h : s.store vpc = some cfg) :
    Ev.cmd ("ip netns exec " ++ ("ns-" ++ vpc ++ "-" ++ sn) ++
        " ip route add default via " ++ gateway_of cidr) ∈
      (create_subnet w vpc sn cidr ty s).2.events ∧
    gateway_of "10.0.1.0/24" = "10.0.1.1" ∧
    spec_gateway "10.0.1.0/24" = some "10.0.1.1" := by
  refine ⟨?_, by decide, by decide⟩
  simp [create_subnet, storeGet, h, runCmd, pyNot, storePut]

/-- Witness for C3 (amended) at `createSubnet("test", "web", "10.0.1.0/24",
"private")`. -/
theorem spec_C3_gateway_last_char_witness :
    Ev.cmd ("ip netns exec " ++ ("ns-" ++ "test" ++ "-" ++ "web") ++
        " ip route add default via " ++ gateway_of "10.0.1.0/24") ∈
      (create_subnet worldDown "test" "web" "10.0.1.0/24" "private"
        stTest).2.events ∧
    gateway_of "10.0.1.0/24" = "10.0.1.1" ∧
    spec_gateway "10.0.1.0/24" = some "10.0.1.1" :=
  spec_C3_gateway_last_char worldDown stTest "test" "web" "10.0.1.0/24"
    "private" cfgTest (by simp [stTest])

/-- C7 counterexample: with VPC `test` and subnet `web` present and a rules
file that exists but fails to read/parse, `apply_firewall` returns the
failure having issued *no* commands at all — contrary to the claim, the
flush, default-deny and allow rules have not "already been applied", because
the source only queues commands in a list and executes them after parsing. -/
theorem spec_C7_counterexample :
    (apply_firewall worldDown rfsBad "test" "web" (some "rules.json")
        stTest2).1 = false ∧
    (apply_firewall worldDown rfsBad "test" "web" (some "rules.json")
        stTest2).2.events = [] := by
  decide

/-- C7 as amended: when the rules file exists but reading or parsing it
raises, `apply_firewall` aborts with the failure before *any* rule is
applied: the base rules were only queued, never executed, so the state is
returned unchanged (no commands, no store writes) and nothing needs rolling
back. -/
theorem spec_C7_rulefile_error_aborts_before_rules (w : World)
    (rfs : RulesFS) (s : St) (vpc sn rf : String) (cfg : VpcConfig)
    (info : SubnetRec) (h1 : s.store vpc = some cfg)
    (h2 : assocGet cfg.subnets sn = some info) (h3 : rf ≠ "")
    (h4 : rfs rf = some none) :
    apply_firewall w rfs vpc sn (some rf) s = (false, s) := by
  simp [apply_firewall, storeGet, h1, h2, h3, h4]

/-- Witness for C7 (amended) at the concrete bad rules file `rules.json`. -/
theorem spec_C7_rulefile_error_aborts_before_rules_witness :
    apply_firewall worldDown rfsBad "test" "web" (some "rules.json") stTest2 =
      (false, stTest2) :=
  spec_C7_rulefile_error_aborts_before_rules worldDown rfsBad stTest2 "test"
    "web" "rules.json" cfgTest2 webRec (by simp [stTest2]) (by decide)
    (by decide) (by simp [rfsBad])

lemma delete_subnet_absent (w : World) (vpc sn : String) (s : St)
    (cfg : VpcConfig) (h1 : s.store vpc = some cfg)
    (h2 : assocGet cfg.subnets sn = none) :
    delete_subnet w vpc sn s = (false, s) := by
  simp [delete_subnet, storeGet, h1, h2]

lemma delete_subnet_present_events (w : World) (vpc sn : String) (s : St)
    (cfg : VpcConfig) (info : SubnetRec) (h1 : s.store vpc = some cfg)
    (h2 : assocGet cfg.subnets sn = some info) :
    (delete_subnet w vpc sn s).2.events =
      s.events ++ [Ev.cmd ("ip netns delete " ++ info.ns),
        Ev.putRec vpc { cfg with subnets := assocErase cfg.subnets sn }] := by
  simp [delete_subnet, storeGet, h1, h2, runCmd, storePut]

lemma delete_subnet_present_store (w : World) (vpc sn : String) (s : St)
    (cfg : VpcConfig) (info : SubnetRec) (h1 : s.store vpc = some cfg)
    (h2 : assocGet cfg.subnets sn = some info) (k : String) :
    (delete_subnet w vpc sn s).2.store k =
      if k = vpc then some { cfg with subnets := assocErase cfg.subnets sn }
      else s.store k := by
  simp [delete_subnet, storeGet, h1, h2, runCmd, storePut]

lemma delete_vpc_subnets_spec (w : World) (vpc : String) :
    ∀ (names : List String) (s : St) (cfg : VpcConfig),
      s.store vpc = some cfg → names.Nodup →
      ∃ E, (delete_vpc_subnets w vpc names s).events = s.events ++ E ∧
        (∀ e ∈ E, (∃ c, e = Ev.cmd ("ip netns delete " ++ c)) ∨
          ∃ cf, e = Ev.putRec vpc cf) ∧
        (∀ sn ∈ names, ∀ info, assocGet cfg.subnets sn = some info →
          Ev.cmd ("ip netns delete " ++ info.ns) ∈ E) := by
  intro names
  induction names with
  | nil =>
    intro s cfg h hnd
    exact ⟨[], by simp [delete_vpc_subnets], by simp, by simp⟩
  | cons sn rest ih =>
    intro s cfg h hnd
    have hsn : sn ∉ rest := (List.nodup_cons.mp hnd).1
    have hnd' : rest.Nodup := (List.nodup_cons.mp hnd).2
    have hstep : delete_vpc_subnets w vpc (sn :: rest) s =
        delete_vpc_subnets w vpc rest (delete_subnet w vpc sn s).2 := rfl
    cases hsub : assocGet cfg.subnets sn with
    | none =>
      have hds := delete_subnet_absent w vpc sn s cfg h hsub
      obtain ⟨E, hE1, hE2, hE3⟩ := ih s cfg h hnd'
      refine ⟨E, ?_, hE2, ?_⟩
      · rw [hstep, hds]
        exact hE1
      · intro sn' hmem info hinfo
        rcases List.mem_cons.mp hmem with he | hm
        · rw [he, hsub] at hinfo
          exact Option.noConfusion hinfo
        · exact hE3 sn' hm info hinfo
    | some info =>
      have hev := delete_subnet_present_events w vpc sn s cfg info h hsub
      have hst : (delete_subnet w vpc sn s).2.store vpc =
          some { cfg with subnets := assocErase cfg.subnets sn } := by
        rw [delete_subnet_present_store w vpc sn s cfg info h hsub vpc]
        simp
      obtain ⟨E, hE1, hE2, hE3⟩ :=
        ih (delete_subnet w vpc sn s).2
          { cfg with subnets := assocErase cfg.subnets sn } hst hnd'
      refine ⟨[Ev.cmd ("ip netns delete " ++ info.ns),
        Ev.putRec vpc { cfg with subnets := assocErase cfg.subnets sn }] ++ E,
        ?_, ?_, ?_⟩
      · rw [hstep, hE1, hev, List.append_assoc]
      · intro e he
        rcases List.mem_append.mp he with h1 | h1
        · rcases List.mem_cons.mp h1 with h2 | h2
          · exact Or.inl ⟨info.ns, h2⟩
          · refine Or.inr ⟨{ cfg with subnets := assocErase cfg.subnets sn }, ?_⟩
            simpa using h2
        · exact hE2 e h1
      · intro sn' hmem i hinfo
        rcases List.mem_cons.mp hmem with he | hm
        · rw [he, hsub] at hinfo
          refine List.mem_append.mpr (Or.inl ?_)
          simp only [Option.some.injEq] at hinfo
          rw [hinfo]
          exact List.mem_cons_self _ _
        · have hne : sn' ≠ sn := fun hh => hsn (hh ▸ hm)
          have hget : assocGet (assocErase cfg.subnets sn) sn' = some i := by
            rw [assocGet_erase_ne cfg.subnets sn sn' hne]
            exact hinfo
          exact List.mem_append.mpr (Or.inr (hE3 sn' hm i hget))

/-- C6: with a record for `vpc` present, `delete_vpc` first runs the subnet
deletions (every child subnet's `ip netns delete` plus the interleaved
record updates), then brings the bridge down and deletes it, and removes the
persisted record as the very last effect; afterwards the record is gone. -/
theorem spec_C6_delete_vpc_ordering (w : World) (s : St) (vpc : String)
    (cfg : VpcConfig) (h : s.store vpc = some cfg)
    (hnd : (cfg.subnets.map Prod.fst).Nodup) :
    (delete_vpc w vpc s).1 = true ∧
    (∃ E, (delete_vpc w vpc s).2.events =
        s.events ++ E ++
          [Ev.cmd ("ip link set " ++ cfg.bridge ++ " down"),
           Ev.cmd ("ip link delete " ++ cfg.bridge ++ " type bridge"),
           Ev.delRec vpc] ∧
      (∀ e ∈ E, (∃ c, e = Ev.cmd ("ip netns delete " ++ c)) ∨
        ∃ cf, e = Ev.putRec vpc cf) ∧
      ∀ p ∈ cfg.subnets, Ev.cmd ("ip netns delete " ++ p.2.ns) ∈ E) ∧
    (delete_vpc w vpc s).2.store vpc = none := by
  obtain ⟨E, hE1, hE2, hE3⟩ :=
    delete_vpc_subnets_spec w vpc (cfg.subnets.map Prod.fst) s cfg h hnd
  refine ⟨?_, ⟨E, ?_, hE2, ?_⟩, ?_⟩
  · simp [delete_vpc, storeGet, h]
  · simp only [delete_vpc, storeGet, h, runCmd, storeDelete]
    rw [hE1]
    simp [List.append_assoc]
  · intro p hp
    have hmem : p.1 ∈ cfg.subnets.map Prod.fst :=
      List.mem_map.mpr ⟨p, hp, rfl⟩
    exact hE3 p.1 hmem p.2 (assocGet_of_mem_nodup cfg.subnets p.1 p.2 hnd hp)
  · simp [delete_vpc, storeGet, h, runCmd, storeDelete]

/-- Witness for C6: deleting VPC `test` with subnets `web` and `db`. -/
theorem spec_C6_delete_vpc_ordering_witness :
    (delete_vpc worldDown "test" stTest2).1 = true ∧
    (∃ E, (delete_vpc worldDown "test" stTest2).2.events =
        stTest2.events ++ E ++
          [Ev.cmd ("ip link set " ++ cfgTest2.bridge ++ " down"),
           Ev.cmd ("ip link delete " ++ cfgTest2.bridge ++ " type bridge"),
           Ev.delRec "test"] ∧
      (∀ e ∈ E, (∃ c, e = Ev.cmd ("ip netns delete " ++ c)) ∨
        ∃ cf, e = Ev.putRec "test" cf) ∧
      ∀ p ∈ cfgTest2.subnets, Ev.cmd ("ip netns delete " ++ p.2.ns) ∈ E) ∧
    (delete_vpc worldDown "test" stTest2).2.store "test" = none :=
  spec_C6_delete_vpc_ordering worldDown stTest2 "test" cfgTest2
    (by simp [stTest2]) (by decide)

/-- Modelled from the spec: "strings of the form `a.b.c.d/m` where `a`, `b`,
`c`, `d` are octets in [0,255] and `m` is in [0,32]", reading the octets and
mask as plain decimal numerals. -/
def spec_form_cidr (s : String) : Bool :=
  match pySplitChar s '/' with
  | [ip, maskStr] =>
    (match pySplitChar ip '.' with
     | [a, b, c, d] =>
        [a, b, c, d].all fun p => (decNat p.data).getD 256 ≤ 255
     | _ => false) &&
    ((decNat maskStr.data).getD 33 ≤ 32)
  | _ => false

/-- C4 counterexample: `validate_cidr` accepts `10.0.0.+1/24`, which is not
of the dotted-quad form the claim describes (its last address token `+1` is
not an octet numeral): Python's `int()` also accepts a sign, surrounding
whitespace and underscores between digits, so acceptance is not *exact*. -/
theorem spec_C4_counterexample :
    validate_cidr "10.0.0.+1/24" = true ∧
    spec_form_cidr "10.0.0.+1/24" = false := by
  decide

/-- The exact acceptance condition of `validate_cidr`: the string splits on
`/` into an address and a mask token, the mask token parses under Python
`int()` to a value in [0,32], and the address splits on `.` into exactly
four tokens, each parsing under Python `int()` to a value in [0,255]. -/
def cidr_ok (s : String) : Prop :=
  ∃ ip maskStr m, pySplitChar s '/' = [ip, maskStr] ∧
    pyInt maskStr = some m ∧ 0 ≤ m ∧ m ≤ 32 ∧
    ∃ p1 p2 p3 p4, pySplitChar ip '.' = [p1, p2, p3, p4] ∧
      ∀ p ∈ [p1, p2, p3, p4], ∃ v, pyInt p = some v ∧ 0 ≤ v ∧ v ≤ 255

lemma length_four_ex {α : Type} (l : List α) (h : l.length = 4) :
    ∃ a b c d, l = [a, b, c, d] := by
  match l with
  | [a, b, c, d] => exact ⟨a, b, c, d, rfl⟩
  | [] | [_] | [_, _] | [_, _, _] => simp at h
  | _ :: _ :: _ :: _ :: _ :: _ => simp at h

lemma allOctets_ok_true_iff (ps : List String) :
    allOctets ps = Except.ok true ↔
      ∀ p ∈ ps, ∃ v, pyInt p = some v ∧ 0 ≤ v ∧ v ≤ 255 := by
  induction ps with
  | nil => simp [allOctets]
  | cons p rest ih =>
    cases hp : pyInt p with
    | none =>
      simp only [allOctets, hp]
      constructor
      · intro h
        exact Except.noConfusion h
      · intro h
        obtain ⟨v, hv, _⟩ := h p (List.mem_cons_self p rest)
        rw [hp] at hv
        exact Option.noConfusion hv
    | some v =>
      by_cases hv : 0 ≤ v ∧ v ≤ 255
      · simp only [allOctets, hp, if_pos hv]
        rw [ih]
        constructor
        · intro h q hq
          rcases List.mem_cons.mp hq with he | hm
          · subst he
            exact ⟨v, hp, hv⟩
          · exact h q hm
        · intro h q hq
          exact h q (List.mem_cons_of_mem p hq)
      · simp only [allOctets, hp, if_neg hv]
        constructor
        · intro h
          exact Except.noConfusion h fun hfb => Bool.noConfusion hfb
        · intro h
          obtain ⟨v', hv', hr⟩ := h p (List.mem_cons_self p rest)
          rw [hp] at hv'
          cases Option.some.inj hv'
          exact absurd hr hv

/-- C4 as amended: `validate_cidr` returns true for exactly the strings that
split on `/` into an address and a mask whose tokens are accepted by
Python's `int()` parsing (which, beyond plain numerals, also allows an
optional sign, surrounding whitespace, and underscores between digits, so
e.g. `10.0.0.+1/24` is accepted) with the four address values in [0,255]
and the mask in [0,32]; every other string yields false. -/
theorem spec_C4_validate_cidr_characterization (s : String) :
    validate_cidr s = true ↔ cidr_ok s := by
  constructor
  · intro h
    cases hsp : pySplitChar s '/' with
    | nil => simp [validate_cidr, validate_cidr_body, hsp] at h
    | cons a l =>
      cases l with
      | nil => simp [validate_cidr, validate_cidr_body, hsp] at h
      | cons b l2 =>
        cases l2 with
        | cons c l3 => simp [validate_cidr, validate_cidr_body, hsp] at h
        | nil =>
          cases hm : pyInt b with
          | none => simp [validate_cidr, validate_cidr_body, hsp, hm] at h
          | some m =>
            by_cases hlen : (pySplitChar a '.').length = 4
            · obtain ⟨p1, p2, p3, p4, hps⟩ := length_four_ex _ hlen
              cases hall : allOctets (pySplitChar a '.') with
              | error e =>
                simp [validate_cidr, validate_cidr_body, hsp, hm, hlen,
                  hall] at h
              | ok bv =>
                cases bv with
                | false =>
                  simp [validate_cidr, validate_cidr_body, hsp, hm, hlen,
                    hall] at h
                | true =>
                  simp only [validate_cidr, validate_cidr_body, hsp, hm,
                    hlen, hall, if_true, Bool.and_eq_true, decide_eq_true_eq,
                    if_pos] at h
                  rw [hps] at hall
                  exact ⟨a, b, m, hsp, hm, h.1, h.2, p1, p2, p3, p4, hps,
                    (allOctets_ok_true_iff _).mp hall⟩
            · simp [validate_cidr, validate_cidr_body, hsp, hm, hlen] at h
  · rintro ⟨ip, maskStr, m, hsp, hm, hm0, hm32, p1, p2, p3, p4, hps, hall⟩
    have hall' : allOctets [p1, p2, p3, p4] = Except.ok true :=
      (allOctets_ok_true_iff _).mpr hall
    simp [validate_cidr, validate_cidr_body, hsp, hm, hps, hall', hm0, hm32]

end Vpcctl

section SanityChecks
open Vpcctl
example :
    (create_vpc worldDown "test" "10.1.0.0/16" st0).2.events =
      [Ev.cmd "ip link show br-test", Ev.putRec "test" cfgTest] := by decide
example :
    (create_subnet worldDown "test" "web" "10.1.1.0/24" "public" stTest).2.events =
      [Ev.cmd "ip netns list | grep -q ns-test-web",
       Ev.cmd "ip link add veth-web-host type veth peer name veth-web-ns",
       Ev.cmd "ip link set veth-web-ns netns ns-test-web",
       Ev.cmd "ip link set veth-web-host master br-test",
       Ev.cmd "ip link set veth-web-host up",
       Ev.cmd "ip netns exec ns-test-web ip link set lo up",
       Ev.cmd "ip netns exec ns-test-web ip link set veth-web-ns up",
       Ev.cmd "ip netns exec ns-test-web ip addr add 10.1.1.0/24 dev veth-web-ns",
       Ev.cmd "ip netns exec ns-test-web ip route add default via 10.1.1.1",
       Ev.putRec "test" ⟨"test", "10.1.0.0/16", "br-test", [("web", webRec)]⟩] := by
  decide
example : gateway_of "10.0.1.0/24" = "10.0.1.1" := by decide
example : gateway_of "10.1.1.128/25" = "10.1.1.121" := by decide
example :
    (delete_vpc worldDown "test" stTest2).2.events =
      [Ev.cmd "ip netns delete ns-test-web",
       Ev.putRec "test" ⟨"test", "10.1.0.0/16", "br-test", [("db", dbRec)]⟩,
       Ev.cmd "ip netns delete ns-test-db",
       Ev.putRec "test" ⟨"test", "10.1.0.0/16", "br-test", []⟩,
       Ev.cmd "ip link set br-test down",
       Ev.cmd "ip link delete br-test type bridge",
       Ev.delRec "test"] := by decide
example :
    (apply_firewall worldDown rfsBad "test" "web" (some "rules.json") stTest2).1 =
        false ∧
    (apply_firewall worldDown rfsBad "test" "web" (some "rules.json") stTest2).2.events =
        [] := by
  decide
example :
    (apply_firewall worldDown rfsBad "test" "web" none stTest2).2.events.length = 8 := by
  decide
example : validate_cidr "10.1.0.0/16" = true := by decide
example : validate_cidr "10.1.0.0" = false := by decide
example : validate_cidr "10.0.0.+1/24" = true := by decide
example : validate_cidr "1.2.3.256/8" = false := by decide
example : validate_cidr "1.2.3.4/33" = false := by decide
example : validate_cidr "1.2.3/8" = false := by decide
example : validate_cidr " 1.2.3.4/ 8" = true := by decide
example : validate_cidr "1.2.3.4/8/9" = false := by decide
example : pyInt "1_0" = some 10 := by decide
example : pyInt "1__0" = none := by decide
example : pyInt "-3" = some (-3) := by decide
example : pySplitChar "a//b" '/' = ["a", "", "b"] := by decide
end SanityChecks
